import Mathlib

/-!
Verification of the Macau weather XML-to-markdown generator
(source file: weather_markdown.py).

The development shallowly embeds the program: XML documents are trees of
elements (tag, optional text, children), Python dicts become structures,
Python functions become Lean functions, and fallible Python code (code
that can raise AttributeError, KeyError, ValueError, ParseError) returns
Option.  Python string values that may be None are Option String; Python
str.format stringifies None as "None", which pyStr reproduces.
-/

/- ----------------------------------------------------------------- -/
/- Basic character-list string helpers (kernel-friendly).            -/
/- ----------------------------------------------------------------- -/

/-- pyStr models how Python str.format stringifies the values this program
passes to it: a present string is used verbatim, Python None prints as
"None". -/
def pyStr : Option String → String
  | none => "None"
  | some s => s

/-- startsWithL pat l is true when pat is an initial segment of l. -/
def startsWithL : List Char → List Char → Bool
  | [], _ => true
  | _ :: _, [] => false
  | p :: ps, c :: cs => p = c && startsWithL ps cs

/-- chopSeq pat l removes the initial segment pat from l, failing when l
does not start with pat. -/
def chopSeq : List Char → List Char → Option (List Char)
  | [], l => some l
  | _ :: _, [] => none
  | p :: ps, c :: cs => if p = c then chopSeq ps cs else none

/-- containsL pat l is true when pat occurs as a contiguous subsequence
of l; it models the Python substring test (pat in l). -/
def containsL (pat : List Char) : List Char → Bool
  | [] => startsWithL pat []
  | c :: rest => startsWithL pat (c :: rest) || containsL pat rest

/-- splitOnce sep l splits l at the first occurrence of sep, returning
the part before and the part after; none when sep does not occur. -/
def splitOnce (sep : List Char) : List Char → Option (List Char × List Char)
  | [] => none
  | c :: rest =>
    match chopSeq sep (c :: rest) with
    | some r => some ([], r)
    | none => (splitOnce sep rest).map (fun p => (c :: p.1, p.2))

/-- The whitespace characters removed by Python str.strip (ASCII part,
which covers every character the templates of this program use). -/
def isPySpace (c : Char) : Bool :=
  c = ' ' || c = '\t' || c = '\n' || c = '\r' || c = '\x0b' || c = '\x0c'

/-- pyStrip models Python str.strip(): whitespace removed from both
ends. -/
def pyStrip (l : List Char) : List Char :=
  ((l.dropWhile isPySpace).reverse.dropWhile isPySpace).reverse

/-- Python substring test on String values (the expression pat in s). -/
def strContains (s pat : String) : Bool :=
  containsL pat.data s.data

/-- SubstrOf sub s: sub occurs verbatim (character for character) as a
contiguous substring of s. -/
def SubstrOf (sub s : String) : Prop :=
  ∃ a b : List Char, s.data = a ++ sub.data ++ b

/- ----------------------------------------------------------------- -/
/- XML document model (xml.etree.ElementTree fragment used here).    -/
/- ----------------------------------------------------------------- -/

/-- An XML element as ElementTree presents it to this program: a tag, an
optional text node (None for an element with no text), and the list of
child elements in document order. -/
inductive XMLElem where
  | mk (tag : String) (text : Option String) (children : List XMLElem)

def XMLElem.tag : XMLElem → String
  | .mk t _ _ => t

def XMLElem.text : XMLElem → Option String
  | .mk _ x _ => x

def XMLElem.children : XMLElem → List XMLElem
  | .mk _ _ c => c

mutual
/-- All proper descendants of one element, in document (preorder)
order. -/
def elemDesc : XMLElem → List XMLElem
  | XMLElem.mk _ _ ch => allDesc ch
/-- All elements of a forest together with their descendants, in
document (preorder) order: each element is followed by its own
descendants, then its later siblings. -/
def allDesc : List XMLElem → List XMLElem
  | [] => []
  | e :: es => e :: (elemDesc e ++ allDesc es)
end

/-- root.findall(".//tag"): every descendant of root with the given tag,
in document order. -/
def findAll (root : XMLElem) (tag : String) : List XMLElem :=
  (allDesc root.children).filter (fun e => e.tag == tag)

/-- root.find(".//tag"): the first descendant of root with the given
tag, None when there is none. -/
def findDesc (root : XMLElem) (tag : String) : Option XMLElem :=
  (allDesc root.children).find? (fun e => e.tag == tag)

/-- e.find("tag") with a plain relative path: the first direct child of
e with the given tag. -/
def findChild (e : XMLElem) (tag : String) : Option XMLElem :=
  e.children.find? (fun c => c.tag == tag)

/- ----------------------------------------------------------------- -/
/- Data model (spec section 3, weather_markdown.py dicts).           -/
/- ----------------------------------------------------------------- -/

/-- One per-day forecast dict built by parse_weather_xml (lines
194-200).  Each field holds the element text (None possible) or the
fallback literal; Option String models the Python string-or-None. -/
structure Forecast where
  date : Option String
  description : Option String
  tide : Option String

/-- The dict returned by parse_weather_xml (lines 202-206), with the
system_info sub-dict (lines 177-181) flattened into the three fields
author, pubdate, language. -/
structure WeatherDoc where
  author : Option String
  pubdate : Option String
  language : Option String
  today_situation : Option String
  forecasts : List Forecast

/-- The two-part template dict: main document template and the repeated
per-day fragment. -/
structure Template where
  main : String
  forecast_item : String

/-- The Lang enum of weather_markdown.py (lines 21-24). -/
inductive Lang where
  | CHINESE
  | PORTUGUESE
  | ENGLISH
deriving DecidableEq

/-- The string value of each Lang enum member. -/
def Lang.value : Lang → String
  | .CHINESE => "zh"
  | .PORTUGUESE => "pt"
  | .ENGLISH => "en"

/- ----------------------------------------------------------------- -/
/- parse_weather_xml (lines 172-206).                                -/
/- ----------------------------------------------------------------- -/

/-- Lines 189-200: build one forecast dict from a WeatherForecast
element.  A present element contributes its text (which may be None), an
absent element contributes the fallback literal. -/
def extractForecast (f : XMLElem) : Forecast :=
  { date :=
      match findChild f "ValidFor" with
      | some e => e.text
      | none => some "Unknown"
    description :=
      match findChild f "WeatherDescription" with
      | some e => e.text
      | none => some "No description"
    tide :=
      match findChild f "AstronomicalTide" with
      | some e => e.text
      | none => some "NIL" }

/-- parse_weather_xml on an already-parsed XML tree (lines 174-206).
The three root.find(".//Sys...").text accesses raise AttributeError when
the element is absent (modelled by none); TodaySituation and the
per-forecast fields fall back to literals when absent (lines 184-200). -/
def parse_weather_xml (root : XMLElem) : Option WeatherDoc :=
  match findDesc root "SysAuthor", findDesc root "SysPubdate",
      findDesc root "SysLanguage" with
  | some a, some p, some lg =>
    some
      { author := a.text
        pubdate := p.text
        language := lg.text
        today_situation :=
          match findDesc root "TodaySituation" with
          | some e => e.text
          | none => some "No data available"
        forecasts := (findAll root "WeatherForecast").map extractForecast }
  | _, _, _ => none

/- ----------------------------------------------------------------- -/
/- Python str.format for the {name} placeholders used here.          -/
/- ----------------------------------------------------------------- -/

/-- Scanner state of the format machine: outside a replacement field, or
inside one with the field-name characters collected so far (reversed). -/
inductive FmtMode where
  | out
  | name (acc : List Char)

/-- Keyword-argument lookup: first binding of the requested name. -/
def lookupVar : List (String × String) → String → Option String
  | [], _ => none
  | (k, v) :: rest, n => if k = n then some v else lookupVar rest n

/-- Python str.format with keyword arguments, restricted to the plain
{name} replacement fields this program uses.  Literal braces are written
doubled; a lone brace, an unterminated field, a brace inside a field
name, or an unknown field name raises (none), exactly the conditions
under which CPython raises ValueError / KeyError / IndexError here. -/
def pyFmtGo (vars : List (String × String)) : FmtMode → List Char → Option (List Char)
  | .out, [] => some []
  | .out, c :: rest =>
    if c = '{' then
      match rest with
      | c2 :: rest2 =>
        if c2 = '{' then (pyFmtGo vars .out rest2).map (fun o => '{' :: o)
        else pyFmtGo vars (.name []) (c2 :: rest2)
      | [] => pyFmtGo vars (.name []) []
    else if c = '}' then
      match rest with
      | c2 :: rest2 =>
        if c2 = '}' then (pyFmtGo vars .out rest2).map (fun o => '}' :: o)
        else none
      | [] => none
    else (pyFmtGo vars .out rest).map (fun o => c :: o)
  | .name _, [] => none
  | .name acc, c :: rest =>
    if c = '}' then
      match lookupVar vars (String.mk acc.reverse) with
      | some v => (pyFmtGo vars .out rest).map (fun o => v.data ++ o)
      | none => none
    else if c = '{' then none
    else pyFmtGo vars (.name (c :: acc)) rest

/-- template.format(kwargs): none models a raised exception. -/
def pyFormat (tmpl : String) (vars : List (String × String)) : Option String :=
  (pyFmtGo vars FmtMode.out tmpl.data).map String.mk

/-- The field names of a format string, in order of occurrence, scanned
exactly as pyFmtGo scans them; none when the brace structure itself is
ill-formed. -/
def namesGo : FmtMode → List Char → Option (List String)
  | .out, [] => some []
  | .out, c :: rest =>
    if c = '{' then
      match rest with
      | c2 :: rest2 =>
        if c2 = '{' then namesGo .out rest2
        else namesGo (.name []) (c2 :: rest2)
      | [] => namesGo (.name []) []
    else if c = '}' then
      match rest with
      | c2 :: rest2 =>
        if c2 = '}' then namesGo .out rest2
        else none
      | [] => none
    else namesGo .out rest
  | .name _, [] => none
  | .name acc, c :: rest =>
    if c = '}' then (namesGo .out rest).map (fun ns => String.mk acc.reverse :: ns)
    else if c = '{' then none
    else namesGo (.name (c :: acc)) rest

/-- The field names of a format string. -/
def fieldNames (tmpl : String) : Option (List String) :=
  namesGo FmtMode.out tmpl.data

/- ----------------------------------------------------------------- -/
/- generate_markdown (lines 209-247).                                -/
/- ----------------------------------------------------------------- -/

/-- Lines 218-227: the tide display string.  The sentinel "NIL" maps to
a fixed per-language string; anything else (including Python None, which
is not equal to "NIL") is passed through to format. -/
def tideDisplay (language : Lang) (tide : Option String) : String :=
  if tide = some "NIL" then
    match language with
    | .CHINESE => "無資料"
    | .PORTUGUESE => "Sem dados"
    | .ENGLISH => "No data"
  else pyStr tide

/-- Lines 229-233: one iteration of the forecast loop, formatting the
per-day fragment with date, tide and description. -/
def renderItem (template : Template) (language : Lang) (f : Forecast) : Option String :=
  pyFormat template.forecast_item
    [("date", pyStr f.date), ("tide", tideDisplay language f.tide),
     ("description", pyStr f.description)]

/-- Lines 216-233: the forecasts_text accumulator, concatenating the
rendered fragments in list order; the loop aborts (none) at the first
fragment whose formatting raises. -/
def forecastsText (template : Template) (language : Lang) : List Forecast → Option String
  | [] => some ""
  | f :: fs =>
    match renderItem template language f, forecastsText template language fs with
    | some s, some r => some (s ++ r)
    | _, _ => none

/-- The keyword arguments of the main-template format call (lines
238-245); now stands for the datetime.now() timestamp string. -/
def mainVars (wd : WeatherDoc) (ftext now : String) : List (String × String) :=
  [("today_situation", pyStr wd.today_situation), ("author", pyStr wd.author),
   ("pubdate", pyStr wd.pubdate), ("language", pyStr wd.language),
   ("forecasts", ftext), ("current_time", now)]

/-- generate_markdown (lines 209-247), with the datetime.now() string
passed in as the argument now.  none models a raised exception. -/
def generate_markdown (wd : WeatherDoc) (template : Template) (language : Lang)
    (now : String) : Option String :=
  match forecastsText template language wd.forecasts with
  | none => none
  | some ftext => pyFormat template.main (mainVars wd ftext now)

/- ----------------------------------------------------------------- -/
/- Templates: defaults (lines 81-169) and the loader (lines 52-78).  -/
/- ----------------------------------------------------------------- -/

/-- create_default_template (lines 81-169), with the triple-quoted
Python strings transcribed byte for byte. -/
def create_default_template (language : Lang) : Template :=
  match language with
  | .CHINESE =>
    { main := "\n# 澳門天氣預報 Weather Forecast Macau\n\n## 今日天氣情況 Today\x27s Situation\n{today_situation}\n\n## 系統資訊 System Information\n- **發布機構**: {author}\n- **發布時間**: {pubdate}\n- **語言**: {language}\n\n## 天氣預報 Weather Forecast\n\n{forecasts}\n\n---\n*最後更新 Last Updated: {current_time}*\n"
      forecast_item := "\n### {date}\n**潮汐 Astronomical Tide**: {tide}\n\n{description}\n\n---\n" }
  | .PORTUGUESE =>
    { main := "\n# Previsão Meteorológica de Macau\n\n## Situação Meteorológica de Hoje\n{today_situation}\n\n## Informação do Sistema\n- **Entidade**: {author}\n- **Data de Publicação**: {pubdate}\n- **Idioma**: {language}\n\n## Previsão Meteorológica\n\n{forecasts}\n\n---\n*Última atualização: {current_time}*\n"
      forecast_item := "\n### {date}\n**Maré Astronómica**: {tide}\n\n{description}\n\n---\n" }
  | .ENGLISH =>
    { main := "\n# Macau Weather Forecast\n\n## Today\x27s Weather Situation\n{today_situation}\n\n## System Information\n- **Issuing Authority**: {author}\n- **Publication Time**: {pubdate}\n- **Language**: {language}\n\n## Weather Forecast\n\n{forecasts}\n\n---\n*Last Updated: {current_time}*\n"
      forecast_item := "\n### {date}\n**Astronomical Tide**: {tide}\n\n{description}\n\n---\n" }

/-- The marker literal separating the outer template from the per-day
fragment (line 61). -/
def TEMPLATE_MARKER : String := "<!-- FORECAST_ITEM -->"

/-- load_template (lines 52-78) as a function of the template file's
content (none models FileNotFoundError).  The Python two-variable
unpacking of content.split(marker) succeeds exactly when the marker
occurs exactly once; a missing marker raises ValueError (line 68), more
than one marker raises ValueError from the unpacking.  Both parts are
stripped (lines 64-65).  none models the re-raised exception. -/
def load_template (content : Option String) : Option Template :=
  match content with
  | none => none
  | some c =>
    match splitOnce TEMPLATE_MARKER.data c.data with
    | none => none
    | some (m, fi) =>
      if containsL TEMPLATE_MARKER.data fi then none
      else some { main := String.mk (pyStrip m), forecast_item := String.mk (pyStrip fi) }

/-- Lines 332-338 of main: try load_template, and on FileNotFoundError
or ValueError warn and fall back to the built-in default for the active
language. -/
def resolveTemplate (content : Option String) (language : Lang) : Template :=
  match load_template content with
  | some t => t
  | none => create_default_template language

/- ----------------------------------------------------------------- -/
/- URL / language selection (lines 31-35, 262-272, 314-324).         -/
/- ----------------------------------------------------------------- -/

/-- The DATA_SOURCES table (lines 31-35). -/
def DATA_SOURCES : Lang → String
  | .CHINESE => "https://xml.smg.gov.mo/c_forecast.xml"
  | .PORTUGUESE => "https://xml.smg.gov.mo/p_forecast.xml"
  | .ENGLISH => "https://xml.smg.gov.mo/e_forecast.xml"

/-- get_language_from_url (lines 262-272). -/
def get_language_from_url (url : String) : Lang :=
  if strContains url "c_forecast.xml" then .CHINESE
  else if strContains url "p_forecast.xml" then .PORTUGUESE
  else if strContains url "e_forecast.xml" then .ENGLISH
  else .CHINESE

/-- Lines 314-324 of main: determine the active language and fetch URL
from the optional --language and --url flags (argparse restricts
--language to the three valid enum values, so it is an
Option Lang here). -/
def selectLanguageUrl (langArg : Option Lang) (urlArg : Option String) :
    Lang × String :=
  match langArg with
  | some l => (l, DATA_SOURCES l)
  | none =>
    match urlArg with
    | some u => (get_language_from_url u, u)
    | none => (Lang.CHINESE, DATA_SOURCES Lang.CHINESE)

/- ----------------------------------------------------------------- -/
/- The fetch-parse-render tail of main (lines 340-363).              -/
/- ----------------------------------------------------------------- -/

/-- Outcome of a run of main: rendered markdown printed to stdout with
exit status 0, or a fatal error (message on stderr only, sys.exit(1)). -/
inductive RunOutcome where
  | success (stdout : String)
  | failure

def RunOutcome.stdout : RunOutcome → String
  | .success s => s
  | .failure => ""

def RunOutcome.exitCode : RunOutcome → Nat
  | .success _ => 0
  | .failure => 1

/-- Lines 345-363 of main, starting after the fetch: parsedXml is the
result of ET.fromstring on the fetched bytes (none models ParseError on
input that is not well-formed XML).  Every raised exception reaches one
of the except clauses of lines 355-363, which print to stderr and
sys.exit(1); only the success path prints to stdout (line 353, print
appends a newline). -/
def runPipeline (parsedXml : Option XMLElem) (template : Template) (language : Lang)
    (now : String) : RunOutcome :=
  match parsedXml with
  | none => .failure
  | some root =>
    match parse_weather_xml root with
    | none => .failure
    | some wd =>
      match generate_markdown wd template language now with
      | none => .failure
      | some md => .success (md ++ "\n")

/- ----------------------------------------------------------------- -/
/- Spec-side definitions (for refinement-style claims).              -/
/- ----------------------------------------------------------------- -/

/-- Modelled from the spec, section 8: the list of per-day fragments,
one per forecast entry, each rendered independently, kept in source
order. -/
def renderAll (template : Template) (language : Lang) : List Forecast → Option (List String)
  | [] => some []
  | f :: fs =>
    match renderItem template language f, renderAll template language fs with
    | some s, some r => some (s :: r)
    | _, _ => none

/-- Concatenation of a list of strings in order. -/
def joinAll : List String → String
  | [] => ""
  | s :: r => s ++ joinAll r

/-- The fixed placeholder-name set of the main template (spec section
4.2). -/
def MAIN_KEYS : List String :=
  ["today_situation", "author", "pubdate", "language", "forecasts", "current_time"]

/-- The fixed placeholder-name set of the per-day fragment (spec section
4.2). -/
def ITEM_KEYS : List String :=
  ["date", "tide", "description"]

/- ----------------------------------------------------------------- -/
/- Helper lemmas.                                                    -/
/- ----------------------------------------------------------------- -/

theorem isSome_map_eq {α β : Type} (f : α → β) (o : Option α) :
    (o.map f).isSome = o.isSome := by
  cases o <;> rfl

/-- forecastsText renders one fragment per entry, in list order, and
concatenates them. -/
theorem forecastsText_eq (t : Template) (l : Lang) (fs : List Forecast) :
    forecastsText t l fs = (renderAll t l fs).map joinAll := by
  induction fs with
  | nil => rfl
  | cons f fs ih =>
    simp only [forecastsText, renderAll, ih]
    cases renderItem t l f with
    | none => rfl
    | some s =>
      cases renderAll t l fs with
      | none => rfl
      | some r => rfl

theorem renderAll_length (t : Template) (l : Lang) (fs : List Forecast) :
    ∀ items, renderAll t l fs = some items → items.length = fs.length := by
  induction fs with
  | nil => intro items h; simp only [renderAll] at h; cases h; rfl
  | cons f fs ih =>
    intro items h
    simp only [renderAll] at h
    cases hr : renderItem t l f with
    | none => rw [hr] at h; exact absurd h (by simp)
    | some s =>
      rw [hr] at h
      cases ha : renderAll t l fs with
      | none => rw [ha] at h; exact absurd h (by simp)
      | some r =>
        rw [ha] at h
        cases h
        simp [ih r ha]

theorem chopSeq_some_startsWith (pat : List Char) :
    ∀ l r, chopSeq pat l = some r → startsWithL pat l = true := by
  induction pat with
  | nil => intro l r _; rfl
  | cons p ps ih =>
    intro l r h
    cases l with
    | nil => exact absurd h (by simp [chopSeq])
    | cons c cs =>
      simp only [chopSeq] at h
      by_cases hpc : p = c
      · rw [if_pos hpc] at h
        simp [startsWithL, hpc, ih cs r h]
      · rw [if_neg hpc] at h
        exact absurd h (by simp)

theorem splitOnce_some_contains (sep : List Char) :
    ∀ l p, splitOnce sep l = some p → containsL sep l = true := by
  intro l
  induction l with
  | nil => intro p h; exact absurd h (by simp [splitOnce])
  | cons c cs ih =>
    intro p h
    simp only [splitOnce] at h
    cases hc : chopSeq sep (c :: cs) with
    | some r =>
      simp [containsL, chopSeq_some_startsWith sep _ _ hc]
    | none =>
      rw [hc] at h
      cases hs : splitOnce sep cs with
      | none => rw [hs] at h; exact absurd h (by simp)
      | some q => simp [containsL, ih q hs]

/- One-step equations for the format scanner and its name scanner. -/

theorem pyFmtGo_out_nil (vars : List (String × String)) :
    pyFmtGo vars .out [] = some [] := rfl

theorem pyFmtGo_brace2 (vars : List (String × String)) (rest : List Char) :
    pyFmtGo vars .out ('{' :: '{' :: rest) =
      (pyFmtGo vars .out rest).map (fun o => '{' :: o) := by
  simp [pyFmtGo]

theorem pyFmtGo_open_cons (vars : List (String × String)) (c : Char) (rest : List Char)
    (h : ¬c = '{') :
    pyFmtGo vars .out ('{' :: c :: rest) = pyFmtGo vars (.name []) (c :: rest) := by
  conv_lhs => rw [pyFmtGo]
  simp [h]

theorem pyFmtGo_open_nil (vars : List (String × String)) :
    pyFmtGo vars .out ['{'] = none := by
  simp [pyFmtGo]

theorem pyFmtGo_close2 (vars : List (String × String)) (rest : List Char) :
    pyFmtGo vars .out ('}' :: '}' :: rest) =
      (pyFmtGo vars .out rest).map (fun o => '}' :: o) := by
  simp [pyFmtGo]

theorem pyFmtGo_close_bad (vars : List (String × String)) (c : Char) (rest : List Char)
    (h : ¬c = '}') :
    pyFmtGo vars .out ('}' :: c :: rest) = none := by
  simp [pyFmtGo, h]

theorem pyFmtGo_close_nil (vars : List (String × String)) :
    pyFmtGo vars .out ['}'] = none := by
  simp [pyFmtGo]

theorem pyFmtGo_char (vars : List (String × String)) (c : Char) (rest : List Char)
    (h1 : ¬c = '{') (h2 : ¬c = '}') :
    pyFmtGo vars .out (c :: rest) = (pyFmtGo vars .out rest).map (fun o => c :: o) := by
  conv_lhs => rw [pyFmtGo.eq_def]
  simp [h1, h2]

theorem pyFmtGo_name_nil (vars : List (String × String)) (acc : List Char) :
    pyFmtGo vars (.name acc) [] = none := rfl

theorem pyFmtGo_name_close (vars : List (String × String)) (acc rest : List Char) :
    pyFmtGo vars (.name acc) ('}' :: rest) =
      match lookupVar vars (String.mk acc.reverse) with
      | some v => (pyFmtGo vars .out rest).map (fun o => v.data ++ o)
      | none => none := by
  conv_lhs => rw [pyFmtGo]
  simp

theorem pyFmtGo_name_open (vars : List (String × String)) (acc rest : List Char) :
    pyFmtGo vars (.name acc) ('{' :: rest) = none := by
  simp [pyFmtGo]

theorem pyFmtGo_name_char (vars : List (String × String)) (acc : List Char) (c : Char)
    (rest : List Char) (h1 : ¬c = '}') (h2 : ¬c = '{') :
    pyFmtGo vars (.name acc) (c :: rest) = pyFmtGo vars (.name (c :: acc)) rest := by
  conv_lhs => rw [pyFmtGo]
  simp [h1, h2]

theorem namesGo_out_nil : namesGo .out [] = some [] := rfl

theorem namesGo_brace2 (rest : List Char) :
    namesGo .out ('{' :: '{' :: rest) = namesGo .out rest := by
  conv_lhs => rw [namesGo]
  simp

theorem namesGo_open_cons (c : Char) (rest : List Char) (h : ¬c = '{') :
    namesGo .out ('{' :: c :: rest) = namesGo (.name []) (c :: rest) := by
  conv_lhs => rw [namesGo]
  simp [h]

theorem namesGo_open_nil : namesGo .out ['{'] = none := by
  simp [namesGo]

theorem namesGo_close2 (rest : List Char) :
    namesGo .out ('}' :: '}' :: rest) = namesGo .out rest := by
  conv_lhs => rw [namesGo]
  simp

theorem namesGo_close_bad (c : Char) (rest : List Char) (h : ¬c = '}') :
    namesGo .out ('}' :: c :: rest) = none := by
  simp [namesGo, h]

theorem namesGo_close_nil : namesGo .out ['}'] = none := by
  simp [namesGo]

theorem namesGo_char (c : Char) (rest : List Char) (h1 : ¬c = '{') (h2 : ¬c = '}') :
    namesGo .out (c :: rest) = namesGo .out rest := by
  conv_lhs => rw [namesGo.eq_def]
  simp [h1, h2]

theorem namesGo_name_nil (acc : List Char) : namesGo (.name acc) [] = none := rfl

theorem namesGo_name_close (acc rest : List Char) :
    namesGo (.name acc) ('}' :: rest) =
      (namesGo .out rest).map (fun ns => String.mk acc.reverse :: ns) := by
  conv_lhs => rw [namesGo]
  simp

theorem namesGo_name_open (acc rest : List Char) :
    namesGo (.name acc) ('{' :: rest) = none := by
  simp [namesGo]

theorem namesGo_name_char (acc : List Char) (c : Char) (rest : List Char)
    (h1 : ¬c = '}') (h2 : ¬c = '{') :
    namesGo (.name acc) (c :: rest) = namesGo (.name (c :: acc)) rest := by
  conv_lhs => rw [namesGo]
  simp [h1, h2]

/-- If the format string scans without brace errors and every field name
it mentions is bound, formatting succeeds. -/
theorem fmt_isSome_of_bound (vars : List (String × String)) (m : FmtMode) (l : List Char) :
    ∀ ns : List String, namesGo m l = some ns →
      (∀ n ∈ ns, (lookupVar vars n).isSome = true) →
      (pyFmtGo vars m l).isSome = true := by
  induction m, l using namesGo.induct with
  | case1 => intro ns _ _; rfl
  | case2 rest2 ih =>
    intro ns hns hb
    rw [namesGo_brace2] at hns
    rw [pyFmtGo_brace2, isSome_map_eq]
    exact ih ns hns hb
  | case3 c2 rest2 h ih =>
    intro ns hns hb
    rw [namesGo_open_cons c2 rest2 h] at hns
    rw [pyFmtGo_open_cons vars c2 rest2 h]
    exact ih ns hns hb
  | case4 ih =>
    intro ns hns _
    rw [namesGo_open_nil] at hns
    exact absurd hns (by simp)
  | case5 rest2 h ih =>
    intro ns hns hb
    rw [namesGo_close2] at hns
    rw [pyFmtGo_close2, isSome_map_eq]
    exact ih ns hns hb
  | case6 c2 rest2 h h2 =>
    intro ns hns _
    rw [namesGo_close_bad c2 rest2 h] at hns
    exact absurd hns (by simp)
  | case7 h =>
    intro ns hns _
    rw [namesGo_close_nil] at hns
    exact absurd hns (by simp)
  | case8 c rest h1 h2 ih =>
    intro ns hns hb
    rw [namesGo_char c rest h1 h2] at hns
    rw [pyFmtGo_char vars c rest h1 h2, isSome_map_eq]
    exact ih ns hns hb
  | case9 acc =>
    intro ns hns _
    rw [namesGo_name_nil] at hns
    exact absurd hns (by simp)
  | case10 acc rest ih =>
    intro ns hns hb
    rw [namesGo_name_close] at hns
    rcases Option.map_eq_some'.mp hns with ⟨ns', hns', hcons⟩
    have hmem : String.mk acc.reverse ∈ ns := by rw [← hcons]; exact List.mem_cons_self _ _
    rcases Option.isSome_iff_exists.mp (hb _ hmem) with ⟨v, hv⟩
    rw [pyFmtGo_name_close, hv]
    rw [isSome_map_eq]
    refine ih ns' hns' (fun n hn => hb n ?_)
    rw [← hcons]
    exact List.mem_cons_of_mem _ hn
  | case11 acc rest h =>
    intro ns hns _
    rw [namesGo_name_open] at hns
    exact absurd hns (by simp)
  | case12 acc c rest h1 h2 ih =>
    intro ns hns hb
    rw [namesGo_name_char acc c rest h1 h2] at hns
    rw [pyFmtGo_name_char vars acc c rest h1 h2]
    exact ih ns hns hb

/-- When formatting succeeds, every field name the format string mentions
is bound, and its bound value occurs verbatim in the output. -/
theorem fmt_subst_substring (vars : List (String × String)) (m : FmtMode) (l : List Char) :
    ∀ (ns : List String) (out : List Char), namesGo m l = some ns →
      pyFmtGo vars m l = some out →
      ∀ n ∈ ns, ∃ v, lookupVar vars n = some v ∧ ∃ a b, out = a ++ v.data ++ b := by
  induction m, l using namesGo.induct with
  | case1 =>
    intro ns out hns _ n hn
    rw [namesGo_out_nil] at hns
    cases hns
    exact absurd hn (by simp)
  | case2 rest2 ih =>
    intro ns out hns hf n hn
    rw [namesGo_brace2] at hns
    rw [pyFmtGo_brace2] at hf
    rcases Option.map_eq_some'.mp hf with ⟨o, ho, hout⟩
    rcases ih ns o hns ho n hn with ⟨v, hv, a, b, hdec⟩
    exact ⟨v, hv, '{' :: a, b, by rw [← hout, hdec]; rfl⟩
  | case3 c2 rest2 h ih =>
    intro ns out hns hf n hn
    rw [namesGo_open_cons c2 rest2 h] at hns
    rw [pyFmtGo_open_cons vars c2 rest2 h] at hf
    exact ih ns out hns hf n hn
  | case4 ih =>
    intro ns out hns _ n _
    rw [namesGo_open_nil] at hns
    exact absurd hns (by simp)
  | case5 rest2 h ih =>
    intro ns out hns hf n hn
    rw [namesGo_close2] at hns
    rw [pyFmtGo_close2] at hf
    rcases Option.map_eq_some'.mp hf with ⟨o, ho, hout⟩
    rcases ih ns o hns ho n hn with ⟨v, hv, a, b, hdec⟩
    exact ⟨v, hv, '}' :: a, b, by rw [← hout, hdec]; rfl⟩
  | case6 c2 rest2 h h2 =>
    intro ns out hns _ n _
    rw [namesGo_close_bad c2 rest2 h] at hns
    exact absurd hns (by simp)
  | case7 h =>
    intro ns out hns _ n _
    rw [namesGo_close_nil] at hns
    exact absurd hns (by simp)
  | case8 c rest h1 h2 ih =>
    intro ns out hns hf n hn
    rw [namesGo_char c rest h1 h2] at hns
    rw [pyFmtGo_char vars c rest h1 h2] at hf
    rcases Option.map_eq_some'.mp hf with ⟨o, ho, hout⟩
    rcases ih ns o hns ho n hn with ⟨v, hv, a, b, hdec⟩
    exact ⟨v, hv, c :: a, b, by rw [← hout, hdec]; rfl⟩
  | case9 acc =>
    intro ns out hns _ n _
    rw [namesGo_name_nil] at hns
    exact absurd hns (by simp)
  | case10 acc rest ih =>
    intro ns out hns hf n hn
    rw [namesGo_name_close] at hns
    rw [pyFmtGo_name_close] at hf
    rcases Option.map_eq_some'.mp hns with ⟨ns', hns', hcons⟩
    cases hv : lookupVar vars (String.mk acc.reverse) with
    | none => rw [hv] at hf; exact absurd hf (by simp)
    | some v =>
      rw [hv] at hf
      rcases Option.map_eq_some'.mp hf with ⟨o, ho, hout⟩
      rw [← hcons] at hn
      rcases List.mem_cons.mp hn with heq | htl
      · exact ⟨v, by rw [← heq] at hv; exact hv, [], o, by rw [← hout]; rfl⟩
      · rcases ih ns' o hns' ho n htl with ⟨v', hv', a, b, hdec⟩
        refine ⟨v', hv', v.data ++ a, b, ?_⟩
        rw [← hout, hdec]
        simp [List.append_assoc]
  | case11 acc rest h =>
    intro ns out hns _ n _
    rw [namesGo_name_open] at hns
    exact absurd hns (by simp)
  | case12 acc c rest h1 h2 ih =>
    intro ns out hns hf n hn
    rw [namesGo_name_char acc c rest h1 h2] at hns
    rw [pyFmtGo_name_char vars acc c rest h1 h2] at hf
    exact ih ns out hns hf n hn

/-- Formatting fails when the format string mentions an unbound name. -/
theorem pyFormat_none_of_unbound (vars : List (String × String)) (tmpl : String)
    (ns : List String) (n : String) (hns : fieldNames tmpl = some ns) (hn : n ∈ ns)
    (hv : lookupVar vars n = none) : pyFormat tmpl vars = none := by
  unfold pyFormat
  cases hf : pyFmtGo vars FmtMode.out tmpl.data with
  | none => rfl
  | some out =>
    rcases fmt_subst_substring vars FmtMode.out tmpl.data ns out hns hf n hn with ⟨v, hv', _⟩
    rw [hv] at hv'
    exact absurd hv' (by simp)

/-- Formatting succeeds when the format string scans cleanly and all its
names are bound. -/
theorem pyFormat_isSome_of_bound (vars : List (String × String)) (tmpl : String)
    (ns : List String) (hns : fieldNames tmpl = some ns)
    (hb : ∀ n ∈ ns, (lookupVar vars n).isSome = true) :
    (pyFormat tmpl vars).isSome = true := by
  unfold pyFormat
  rw [isSome_map_eq]
  exact fmt_isSome_of_bound vars FmtMode.out tmpl.data ns hns hb

/-- A substituted value occurs verbatim in the formatted output. -/
theorem pyFormat_substring (vars : List (String × String)) (tmpl out : String)
    (ns : List String) (n v : String) (hns : fieldNames tmpl = some ns)
    (hf : pyFormat tmpl vars = some out) (hn : n ∈ ns)
    (hv : lookupVar vars n = some v) : SubstrOf v out := by
  unfold pyFormat at hf
  rcases Option.map_eq_some'.mp hf with ⟨o, ho, hout⟩
  rcases fmt_subst_substring vars FmtMode.out tmpl.data ns o hns ho n hn with
    ⟨v', hv', a, b, hdec⟩
  rw [hv] at hv'
  cases hv'
  exact ⟨a, b, by rw [← hout]; exact hdec⟩

/-- The forecast loop succeeds when every fragment renders. -/
theorem forecastsText_isSome (t : Template) (l : Lang) (fs : List Forecast)
    (h : ∀ f : Forecast, (renderItem t l f).isSome = true) :
    (forecastsText t l fs).isSome = true := by
  induction fs with
  | nil => rfl
  | cons f fs ih =>
    simp only [forecastsText]
    rcases Option.isSome_iff_exists.mp (h f) with ⟨s, hs⟩
    rcases Option.isSome_iff_exists.mp ih with ⟨r, hr⟩
    rw [hs, hr]
    rfl

/-- Rendering with any template whose placeholder names are exactly the
fixed main / item sets succeeds and embeds the three system-metadata
values verbatim. -/
theorem render_embeds_fields (wd : WeatherDoc) (t : Template) (l : Lang) (now : String)
    (hm : fieldNames t.main = some MAIN_KEYS)
    (hi : fieldNames t.forecast_item = some ITEM_KEYS) :
    ∃ out, generate_markdown wd t l now = some out ∧
      SubstrOf (pyStr wd.author) out ∧ SubstrOf (pyStr wd.pubdate) out ∧
      SubstrOf (pyStr wd.language) out := by
  have hitem : ∀ f : Forecast, (renderItem t l f).isSome = true := by
    intro f
    unfold renderItem
    refine pyFormat_isSome_of_bound _ _ ITEM_KEYS hi ?_
    intro n hn
    fin_cases hn <;> rfl
  rcases Option.isSome_iff_exists.mp (forecastsText_isSome t l wd.forecasts hitem) with
    ⟨ftext, hftext⟩
  have hmain : (pyFormat t.main (mainVars wd ftext now)).isSome = true := by
    refine pyFormat_isSome_of_bound _ _ MAIN_KEYS hm ?_
    intro n hn
    fin_cases hn <;> rfl
  rcases Option.isSome_iff_exists.mp hmain with ⟨out, hout⟩
  have hgen : generate_markdown wd t l now = some out := by
    unfold generate_markdown
    rw [hftext]
    exact hout
  refine ⟨out, hgen, ?_, ?_, ?_⟩
  · exact pyFormat_substring _ t.main out MAIN_KEYS "author" (pyStr wd.author) hm hout
      (by simp [MAIN_KEYS]) rfl
  · exact pyFormat_substring _ t.main out MAIN_KEYS "pubdate" (pyStr wd.pubdate) hm hout
      (by simp [MAIN_KEYS]) rfl
  · exact pyFormat_substring _ t.main out MAIN_KEYS "language" (pyStr wd.language) hm hout
      (by simp [MAIN_KEYS]) rfl

set_option maxRecDepth 40000 in
/-- Claim C8: for each of the three languages, rendering any parsed
weather document with that language's built-in default template yields a
string that contains the document's author, pubdate and language field
values verbatim (character for character, no escaping) as substrings. -/
theorem c8_default_templates_embed_metadata (wd : WeatherDoc) (l : Lang) (now : String) :
    ∃ out, generate_markdown wd (create_default_template l) l now = some out ∧
      SubstrOf (pyStr wd.author) out ∧ SubstrOf (pyStr wd.pubdate) out ∧
      SubstrOf (pyStr wd.language) out := by
  cases l <;> exact render_embeds_fields wd _ _ now (by decide) (by decide)

/-- Claim C1: a parsed document's forecast list is exactly the
WeatherForecast elements of the source XML in document order (no
re-sorting), and the forecasts section is the concatenation, in that
same order, of one rendered per-day fragment per entry — exactly N
fragments for N entries. -/
theorem c1_fragments_in_source_order (root : XMLElem) (wd : WeatherDoc) (t : Template)
    (l : Lang) (h : parse_weather_xml root = some wd) :
    wd.forecasts = (findAll root "WeatherForecast").map extractForecast ∧
    wd.forecasts.length = (findAll root "WeatherForecast").length ∧
    forecastsText t l wd.forecasts = (renderAll t l wd.forecasts).map joinAll ∧
    (∀ items, renderAll t l wd.forecasts = some items →
      items.length = (findAll root "WeatherForecast").length) ∧
    (∀ now ns out, fieldNames t.main = some ns → "forecasts" ∈ ns →
      generate_markdown wd t l now = some out →
      ∃ ft, forecastsText t l wd.forecasts = some ft ∧ SubstrOf ft out) := by
  have hfc : wd.forecasts = (findAll root "WeatherForecast").map extractForecast := by
    unfold parse_weather_xml at h
    cases ha : findDesc root "SysAuthor" with
    | none => rw [ha] at h; exact absurd h (by simp)
    | some a =>
      rw [ha] at h
      cases hp : findDesc root "SysPubdate" with
      | none => rw [hp] at h; exact absurd h (by simp)
      | some p =>
        rw [hp] at h
        cases hl : findDesc root "SysLanguage" with
        | none => rw [hl] at h; exact absurd h (by simp)
        | some lg =>
          rw [hl] at h
          cases h
          rfl
  refine ⟨hfc, ?_, forecastsText_eq t l wd.forecasts, ?_, ?_⟩
  · rw [hfc]; simp
  · intro items hitems
    rw [renderAll_length t l wd.forecasts items hitems, hfc]
    simp
  · intro now ns out hns hmem hgen
    unfold generate_markdown at hgen
    cases hft : forecastsText t l wd.forecasts with
    | none => rw [hft] at hgen; exact absurd hgen (by simp)
    | some ftext =>
      rw [hft] at hgen
      exact ⟨ftext, rfl,
        pyFormat_substring _ t.main out ns "forecasts" ftext hns hgen hmem rfl⟩

/-- Claim C2: the rendered tide is the raw field value unless it is the
sentinel "NIL", which maps to the per-language fallback string
(無資料 / Sem dados / No data). -/
theorem c2_tide_sentinel (l : Lang) (t : Template) (f : Forecast) (v : String)
    (hv : f.tide = some v) (hne : v ≠ "NIL") :
    tideDisplay l f.tide = v ∧
    renderItem t l f = pyFormat t.forecast_item
      [("date", pyStr f.date), ("tide", v), ("description", pyStr f.description)] ∧
    tideDisplay Lang.CHINESE (some "NIL") = "無資料" ∧
    tideDisplay Lang.PORTUGUESE (some "NIL") = "Sem dados" ∧
    tideDisplay Lang.ENGLISH (some "NIL") = "No data" := by
  have h1 : tideDisplay l f.tide = v := by
    rw [hv]
    unfold tideDisplay
    rw [if_neg (by simp [hne])]
    rfl
  exact ⟨h1, by unfold renderItem; rw [h1], rfl, rfl, rfl⟩

/-- Witness for C2 at a concrete non-sentinel tide value. -/
theorem c2_tide_sentinel_witness :
    ((Forecast.mk (some "May 1") (some "Sunny") (some "1.5m")).tide = some "1.5m") ∧
    ("1.5m" ≠ "NIL") ∧
    (tideDisplay Lang.ENGLISH (Forecast.mk (some "May 1") (some "Sunny")
        (some "1.5m")).tide = "1.5m" ∧
      renderItem (create_default_template Lang.ENGLISH) Lang.ENGLISH
          (Forecast.mk (some "May 1") (some "Sunny") (some "1.5m")) =
        pyFormat (create_default_template Lang.ENGLISH).forecast_item
          [("date", pyStr (Forecast.mk (some "May 1") (some "Sunny") (some "1.5m")).date),
           ("tide", "1.5m"),
           ("description", pyStr (Forecast.mk (some "May 1") (some "Sunny")
             (some "1.5m")).description)] ∧
      tideDisplay Lang.CHINESE (some "NIL") = "無資料" ∧
      tideDisplay Lang.PORTUGUESE (some "NIL") = "Sem dados" ∧
      tideDisplay Lang.ENGLISH (some "NIL") = "No data") :=
  ⟨rfl, by decide,
    c2_tide_sentinel Lang.ENGLISH (create_default_template Lang.ENGLISH)
      (Forecast.mk (some "May 1") (some "Sunny") (some "1.5m")) "1.5m" rfl (by decide)⟩

/-- Claim C4: when XML parsing fails (ET.fromstring raises ParseError,
modelled by parsedXml = none) the run is fatal: exit status non-zero and
nothing written to standard output. -/
theorem c4_parse_error_fatal (t : Template) (l : Lang) (now : String) :
    runPipeline none t l now = RunOutcome.failure ∧
    (runPipeline none t l now).stdout = "" ∧
    (runPipeline none t l now).exitCode ≠ 0 :=
  ⟨rfl, rfl, Nat.one_ne_zero⟩

/-- A concrete well-formed weather document with two forecast entries. -/
def sampleRoot : XMLElem :=
  XMLElem.mk "WeatherReport" none
    [XMLElem.mk "SysAuthor" (some "SMG") [],
     XMLElem.mk "SysPubdate" (some "2024-05-01") [],
     XMLElem.mk "SysLanguage" (some "en") [],
     XMLElem.mk "TodaySituation" (some "Cloudy") [],
     XMLElem.mk "WeatherForecast" none
       [XMLElem.mk "ValidFor" (some "May 1") [],
        XMLElem.mk "WeatherDescription" (some "Rainy") [],
        XMLElem.mk "AstronomicalTide" (some "1.0m") []],
     XMLElem.mk "WeatherForecast" none
       [XMLElem.mk "ValidFor" (some "May 2") [],
        XMLElem.mk "WeatherDescription" (some "Sunny") [],
        XMLElem.mk "AstronomicalTide" (some "NIL") []]]

/-- The parse of sampleRoot. -/
def sampleDoc : WeatherDoc :=
  { author := some "SMG", pubdate := some "2024-05-01", language := some "en",
    today_situation := some "Cloudy",
    forecasts := [Forecast.mk (some "May 1") (some "Rainy") (some "1.0m"),
                  Forecast.mk (some "May 2") (some "Sunny") (some "NIL")] }

theorem sampleRoot_parses : parse_weather_xml sampleRoot = some sampleDoc := rfl

/-- Witness for C1 on the two-entry sample document. -/
theorem c1_fragments_in_source_order_witness :
    (parse_weather_xml sampleRoot = some sampleDoc) ∧
    (sampleDoc.forecasts = (findAll sampleRoot "WeatherForecast").map extractForecast ∧
      sampleDoc.forecasts.length = (findAll sampleRoot "WeatherForecast").length ∧
      forecastsText (create_default_template Lang.ENGLISH) Lang.ENGLISH
          sampleDoc.forecasts =
        (renderAll (create_default_template Lang.ENGLISH) Lang.ENGLISH
          sampleDoc.forecasts).map joinAll ∧
      (∀ items, renderAll (create_default_template Lang.ENGLISH) Lang.ENGLISH
          sampleDoc.forecasts = some items →
        items.length = (findAll sampleRoot "WeatherForecast").length) ∧
      (∀ now ns out,
        fieldNames (create_default_template Lang.ENGLISH).main = some ns →
        "forecasts" ∈ ns →
        generate_markdown sampleDoc (create_default_template Lang.ENGLISH)
          Lang.ENGLISH now = some out →
        ∃ ft, forecastsText (create_default_template Lang.ENGLISH) Lang.ENGLISH
          sampleDoc.forecasts = some ft ∧ SubstrOf ft out)) :=
  ⟨sampleRoot_parses,
    c1_fragments_in_source_order sampleRoot sampleDoc
      (create_default_template Lang.ENGLISH) Lang.ENGLISH sampleRoot_parses⟩

/-- Claim C3: when the three system elements are present (so the parse
itself succeeds, cf. C9), a missing optional element does not raise and
yields its documented fallback literal: "No data available" for
TodaySituation, "Unknown" for ValidFor, "No description" for
WeatherDescription and "NIL" for AstronomicalTide. -/
theorem c3_optional_fallbacks (root : XMLElem)
    (ha : (findDesc root "SysAuthor").isSome = true)
    (hp : (findDesc root "SysPubdate").isSome = true)
    (hl : (findDesc root "SysLanguage").isSome = true) :
    ∃ wd, parse_weather_xml root = some wd ∧
      (findDesc root "TodaySituation" = none →
        wd.today_situation = some "No data available") ∧
      wd.forecasts = (findAll root "WeatherForecast").map extractForecast ∧
      ∀ f : XMLElem,
        (findChild f "ValidFor" = none → (extractForecast f).date = some "Unknown") ∧
        (findChild f "WeatherDescription" = none →
          (extractForecast f).description = some "No description") ∧
        (findChild f "AstronomicalTide" = none → (extractForecast f).tide = some "NIL") := by
  rcases Option.isSome_iff_exists.mp ha with ⟨a, ha'⟩
  rcases Option.isSome_iff_exists.mp hp with ⟨p, hp'⟩
  rcases Option.isSome_iff_exists.mp hl with ⟨lg, hl'⟩
  refine ⟨{ author := a.text, pubdate := p.text, language := lg.text,
            today_situation := match findDesc root "TodaySituation" with
              | some e => e.text
              | none => some "No data available",
            forecasts := (findAll root "WeatherForecast").map extractForecast },
    ?_, ?_, rfl, ?_⟩
  · unfold parse_weather_xml
    rw [ha', hp', hl']
  · intro hts
    show (match findDesc root "TodaySituation" with
      | some e => e.text
      | none => some "No data available") = some "No data available"
    rw [hts]
  · intro f
    refine ⟨fun hx => ?_, fun hx => ?_, fun hx => ?_⟩ <;> simp [extractForecast, hx]

/-- A well-formed input whose optional elements are all absent. -/
def c3root : XMLElem :=
  XMLElem.mk "WeatherReport" none
    [XMLElem.mk "SysAuthor" (some "SMG") [],
     XMLElem.mk "SysPubdate" (some "2024-05-01") [],
     XMLElem.mk "SysLanguage" (some "en") [],
     XMLElem.mk "WeatherForecast" none []]

/-- Witness for C3 on c3root. -/
theorem c3_optional_fallbacks_witness :
    ((findDesc c3root "SysAuthor").isSome = true ∧
     (findDesc c3root "SysPubdate").isSome = true ∧
     (findDesc c3root "SysLanguage").isSome = true) ∧
    (∃ wd, parse_weather_xml c3root = some wd ∧
      (findDesc c3root "TodaySituation" = none →
        wd.today_situation = some "No data available") ∧
      wd.forecasts = (findAll c3root "WeatherForecast").map extractForecast ∧
      ∀ f : XMLElem,
        (findChild f "ValidFor" = none → (extractForecast f).date = some "Unknown") ∧
        (findChild f "WeatherDescription" = none →
          (extractForecast f).description = some "No description") ∧
        (findChild f "AstronomicalTide" = none →
          (extractForecast f).tide = some "NIL")) :=
  ⟨⟨rfl, rfl, rfl⟩, c3_optional_fallbacks c3root rfl rfl rfl⟩

/-- Claim C9: the fallback mechanism does not cover the system metadata:
a well-formed input missing SysAuthor, SysPubdate or SysLanguage makes
parse_weather_xml raise (AttributeError on None.text) instead of
substituting a fallback. -/
theorem c9_missing_sysfield_raises (root : XMLElem)
    (h : findDesc root "SysAuthor" = none ∨ findDesc root "SysPubdate" = none ∨
      findDesc root "SysLanguage" = none) :
    parse_weather_xml root = none := by
  unfold parse_weather_xml
  rcases h with h | h | h
  · rw [h]
  · rw [h]
    cases findDesc root "SysAuthor" <;> rfl
  · rw [h]
    cases findDesc root "SysAuthor" <;> cases findDesc root "SysPubdate" <;> rfl

/-- A well-formed input with no system metadata at all. -/
def c9root : XMLElem :=
  XMLElem.mk "Broken" none [XMLElem.mk "TodaySituation" (some "Sunny") []]

/-- Witness for C9 on c9root. -/
theorem c9_missing_sysfield_raises_witness :
    (findDesc c9root "SysAuthor" = none ∨ findDesc c9root "SysPubdate" = none ∨
      findDesc c9root "SysLanguage" = none) ∧
    parse_weather_xml c9root = none :=
  ⟨Or.inl rfl, c9_missing_sysfield_raises c9root (Or.inl rfl)⟩

/-- Claim C10: an optional element that is present but has no text
content is stored as Python None (none), not as the fallback literal —
the fallback applies only to an entirely absent element. -/
theorem c10_empty_text_not_fallback (root : XMLElem) (wd : WeatherDoc)
    (h : parse_weather_xml root = some wd) :
    (∀ e, findDesc root "TodaySituation" = some e → e.text = none →
      wd.today_situation = none) ∧
    wd.forecasts = (findAll root "WeatherForecast").map extractForecast ∧
    (∀ f e, findChild f "ValidFor" = some e → e.text = none →
      (extractForecast f).date = none) ∧
    (∀ f e, findChild f "WeatherDescription" = some e → e.text = none →
      (extractForecast f).description = none) ∧
    (∀ f e, findChild f "AstronomicalTide" = some e → e.text = none →
      (extractForecast f).tide = none) := by
  unfold parse_weather_xml at h
  cases ha : findDesc root "SysAuthor" with
  | none => rw [ha] at h; exact absurd h (by simp)
  | some a =>
    rw [ha] at h
    cases hp : findDesc root "SysPubdate" with
    | none => rw [hp] at h; exact absurd h (by simp)
    | some p =>
      rw [hp] at h
      cases hl : findDesc root "SysLanguage" with
      | none => rw [hl] at h; exact absurd h (by simp)
      | some lg =>
        rw [hl] at h
        cases h
        refine ⟨?_, rfl, ?_, ?_, ?_⟩
        · intro e hts htx
          show (match findDesc root "TodaySituation" with
            | some e => e.text
            | none => some "No data available") = none
          rw [hts]
          exact htx
        · intro f e hx htx; simp [extractForecast, hx, htx]
        · intro f e hx htx; simp [extractForecast, hx, htx]
        · intro f e hx htx; simp [extractForecast, hx, htx]

/-- A well-formed input whose optional elements are present but empty. -/
def c10root : XMLElem :=
  XMLElem.mk "WeatherReport" none
    [XMLElem.mk "SysAuthor" (some "SMG") [],
     XMLElem.mk "SysPubdate" (some "2024-05-01") [],
     XMLElem.mk "SysLanguage" (some "en") [],
     XMLElem.mk "TodaySituation" none [],
     XMLElem.mk "WeatherForecast" none
       [XMLElem.mk "ValidFor" none [],
        XMLElem.mk "WeatherDescription" none [],
        XMLElem.mk "AstronomicalTide" none []]]

/-- The parse of c10root: empty-text elements store none, not the
fallback literals. -/
def c10doc : WeatherDoc :=
  { author := some "SMG", pubdate := some "2024-05-01", language := some "en",
    today_situation := none,
    forecasts := [Forecast.mk none none none] }

/-- Witness for C10 on c10root. -/
theorem c10_empty_text_not_fallback_witness :
    (parse_weather_xml c10root = some c10doc) ∧
    ((∀ e, findDesc c10root "TodaySituation" = some e → e.text = none →
      c10doc.today_situation = none) ∧
    c10doc.forecasts = (findAll c10root "WeatherForecast").map extractForecast ∧
    (∀ f e, findChild f "ValidFor" = some e → e.text = none →
      (extractForecast f).date = none) ∧
    (∀ f e, findChild f "WeatherDescription" = some e → e.text = none →
      (extractForecast f).description = none) ∧
    (∀ f e, findChild f "AstronomicalTide" = some e → e.text = none →
      (extractForecast f).tide = none)) :=
  ⟨rfl, c10_empty_text_not_fallback c10root c10doc rfl⟩

/-- Claim C5: an absent template file, or one whose content lacks the
marker literal, makes load_template fail recoverably, and the caller
(main, lines 332-338) substitutes the built-in default template for the
active language and continues. -/
theorem c5_template_fallback (content : Option String) (l : Lang)
    (h : content = none ∨
      ∃ c, content = some c ∧ strContains c TEMPLATE_MARKER = false) :
    load_template content = none ∧
    resolveTemplate content l = create_default_template l := by
  have hload : load_template content = none := by
    rcases h with h | ⟨c, hc, hm⟩
    · rw [h]; rfl
    · rw [hc]
      simp only [load_template]
      cases hs : splitOnce TEMPLATE_MARKER.data c.data with
      | none => rfl
      | some p =>
        have hct := splitOnce_some_contains TEMPLATE_MARKER.data c.data p hs
        unfold strContains at hm
        rw [hct] at hm
        exact absurd hm (by simp)
  refine ⟨hload, ?_⟩
  unfold resolveTemplate
  rw [hload]

/-- Witness for C5: a template file whose content has no marker. -/
theorem c5_template_fallback_witness :
    ((some "hello" : Option String) = none ∨
      ∃ c, (some "hello" : Option String) = some c ∧
        strContains c TEMPLATE_MARKER = false) ∧
    (load_template (some "hello") = none ∧
      resolveTemplate (some "hello") Lang.CHINESE =
        create_default_template Lang.CHINESE) :=
  ⟨Or.inr ⟨"hello", rfl, by decide⟩,
    c5_template_fallback (some "hello") Lang.CHINESE (Or.inr ⟨"hello", rfl, by decide⟩)⟩

/-- Counterexample to claim C6 as stated: with both a URL override and a
language override supplied, the fetch does not use the supplied URL —
the language override also replaces the fetch URL with that language's
default data source. -/
theorem c6_url_override_counterexample :
    (selectLanguageUrl (some Lang.ENGLISH)
        (some "https://xml.smg.gov.mo/c_forecast.xml")).2 ≠
      "https://xml.smg.gov.mo/c_forecast.xml" := by
  decide

/-- Claim C6 amended: a language override takes full precedence — it
fixes the active language and replaces the fetch URL with that
language's default data-source URL, ignoring any URL override; the URL
override is used (with URL-based language detection) only when no
language override is supplied. -/
theorem c6_language_precedence (l : Lang) (urlArg : Option String) (u : String) :
    selectLanguageUrl (some l) urlArg = (l, DATA_SOURCES l) ∧
    selectLanguageUrl none (some u) = (get_language_from_url u, u) ∧
    selectLanguageUrl none none = (Lang.CHINESE, DATA_SOURCES Lang.CHINESE) :=
  ⟨rfl, rfl, rfl⟩

theorem lookup_mainVars_none (wd : WeatherDoc) (ftext now n : String)
    (h : n ∉ MAIN_KEYS) : lookupVar (mainVars wd ftext now) n = none := by
  simp only [MAIN_KEYS, List.mem_cons, List.not_mem_nil, or_false, not_or] at h
  obtain ⟨h1, h2, h3, h4, h5, h6⟩ := h
  simp [lookupVar, mainVars, Ne.symm h1, Ne.symm h2, Ne.symm h3, Ne.symm h4,
    Ne.symm h5, Ne.symm h6]

theorem lookup_itemVars_none (d tv ds n : String) (h : n ∉ ITEM_KEYS) :
    lookupVar [("date", d), ("tide", tv), ("description", ds)] n = none := by
  simp only [ITEM_KEYS, List.mem_cons, List.not_mem_nil, or_false, not_or] at h
  obtain ⟨h1, h2, h3⟩ := h
  simp [lookupVar, Ne.symm h1, Ne.symm h2, Ne.symm h3]

/-- Claim C7 amended: an unrecognized placeholder in the main template
always makes generate_markdown raise; an unrecognized placeholder in the
per-day fragment makes it raise whenever the document has at least one
forecast entry (with zero entries the fragment is never formatted, cf.
the counterexample). -/
theorem c7_unknown_placeholder_fails (wd : WeatherDoc) (t : Template) (l : Lang)
    (now : String)
    (h : (∃ ns n, fieldNames t.main = some ns ∧ n ∈ ns ∧ n ∉ MAIN_KEYS) ∨
      (wd.forecasts ≠ [] ∧
        ∃ ns n, fieldNames t.forecast_item = some ns ∧ n ∈ ns ∧ n ∉ ITEM_KEYS)) :
    generate_markdown wd t l now = none := by
  rcases h with ⟨ns, n, hns, hn, hk⟩ | ⟨hne, ns, n, hns, hn, hk⟩
  · unfold generate_markdown
    cases hft : forecastsText t l wd.forecasts with
    | none => rfl
    | some ftext =>
      exact pyFormat_none_of_unbound (mainVars wd ftext now) t.main ns n hns hn
        (lookup_mainVars_none wd ftext now n hk)
  · cases hfs : wd.forecasts with
    | nil => exact absurd hfs hne
    | cons f fs =>
      have hri : renderItem t l f = none := by
        unfold renderItem
        exact pyFormat_none_of_unbound _ t.forecast_item ns n hns hn
          (lookup_itemVars_none _ _ _ n hk)
      have hftx : forecastsText t l (f :: fs) = none := by
        simp only [forecastsText]
        rw [hri]
      unfold generate_markdown
      rw [hfs, hftx]

/-- Counterexample to claim C7 as stated: a per-day fragment with the
unknown placeholder foo, rendered for a document with zero forecast
entries, produces output instead of raising — the fragment is never
formatted when the forecast list is empty. -/
theorem c7_unknown_placeholder_counterexample :
    fieldNames (Template.mk "ok" "{foo}").forecast_item = some ["foo"] ∧
    ("foo" ∉ ITEM_KEYS ∧ "foo" ∉ MAIN_KEYS) ∧
    generate_markdown
      (WeatherDoc.mk (some "SMG") (some "2024-05-01") (some "en") (some "Cloudy") [])
      (Template.mk "ok" "{foo}") Lang.ENGLISH "2024-05-01 00:00:00" = some "ok" :=
  ⟨by decide, ⟨by decide, by decide⟩, rfl⟩

/-- Witness for the amended C7: an unknown placeholder in the main
template makes rendering fail. -/
theorem c7_unknown_placeholder_fails_witness :
    ((∃ ns n, fieldNames (Template.mk "{bogus}" "x").main = some ns ∧ n ∈ ns ∧
        n ∉ MAIN_KEYS) ∨
      (sampleDoc.forecasts ≠ [] ∧
        ∃ ns n, fieldNames (Template.mk "{bogus}" "x").forecast_item = some ns ∧
          n ∈ ns ∧ n ∉ ITEM_KEYS)) ∧
    generate_markdown sampleDoc (Template.mk "{bogus}" "x") Lang.ENGLISH
      "2024-05-01 00:00:00" = none :=
  ⟨Or.inl ⟨["bogus"], "bogus", by decide, by decide, by decide⟩,
    c7_unknown_placeholder_fails sampleDoc (Template.mk "{bogus}" "x")
      Lang.ENGLISH "2024-05-01 00:00:00"
      (Or.inl ⟨["bogus"], "bogus", by decide, by decide, by decide⟩)⟩
